import Mathlib

/-!
Verification of the `user` MCP tool (`ragtag/tools/user.py`).

The development shallowly embeds the tool implementation: Python runtime
values are modelled by the mutual inductive `PyVal` / `PyList` / `PyDict`
(a Python `dict` is an insertion-ordered association list with unique keys),
and each handler function of `user.py` is translated into a total Lean
function.  Interaction with the presentation thread (the `friday_ui_queue`
registry entry and the per-request `reply_queue`) is modelled by an explicit
environment `Env`: `queueExists` says whether `sys.modules.get("friday_ui_queue")`
is non-`None`, and `replyAt`/`replyVal` describe when (if ever) the consumer
writes a reply into the fresh per-request reply queue, so that
`reply_queue.get(timeout=b)` becomes the pure function `reply_get`.
Each handler returns its result envelope together with the list of
`UIRequest` messages it put on the consumer queue.

The installation token `TOOL_UNLOCK_TOKEN` is produced by
`get_tool_token(__file__)` from `easy_mcp.server`, which is outside the
repository sources; following the spec (the token is an opaque
per-installation string) every definition is parameterised by `tok : String`.
-/

mutual
/-- Python runtime values as they occur in this tool: strings, ints, bools,
`None`, lists and string-keyed dicts.  (Floats appear in the source only as
`time.time()` timestamps; times are modelled as integers throughout.) -/
inductive PyVal where
  | str : String → PyVal
  | int : Int → PyVal
  | bool : Bool → PyVal
  | none : PyVal
  | list : PyList → PyVal
  | dict : PyDict → PyVal
deriving DecidableEq, Repr

inductive PyList where
  | nil : PyList
  | cons : PyVal → PyList → PyList
deriving DecidableEq, Repr

inductive PyDict where
  | nil : PyDict
  | cons : String → PyVal → PyDict → PyDict
deriving DecidableEq, Repr
end

/-- Build a `PyList` from a Lean list. -/
def PyList.ofList : List PyVal → PyList
  | [] => .nil
  | v :: rest => .cons v (PyList.ofList rest)

/-- Build a `PyDict` from a Lean association list. -/
def PyDict.ofList : List (String × PyVal) → PyDict
  | [] => .nil
  | (k, v) :: rest => .cons k v (PyDict.ofList rest)

/-- `d.get(key)` without a default: first (unique) matching key. -/
def dget : PyDict → String → Option PyVal
  | .nil, _ => Option.none
  | .cons k v rest, key => if k = key then some v else dget rest key

/-- `d[key] = value`: overwrite in place if present, else append. -/
def dset : PyDict → String → PyVal → PyDict
  | .nil, k, v => .cons k v .nil
  | .cons k1 v1 rest, k, v =>
      if k1 = k then .cons k1 v rest else .cons k1 v1 (dset rest k v)

/-- `d.pop(key, None)`: the dict with the key removed. -/
def dpop : PyDict → String → PyDict
  | .nil, _ => .nil
  | .cons k1 v1 rest, k =>
      if k1 = k then dpop rest k else .cons k1 v1 (dpop rest k)

/-- Key list of a dict, in insertion order. -/
def PyDict.keys : PyDict → List String
  | .nil => []
  | .cons k _ rest => k :: PyDict.keys rest

/-- `d.get(key, dfl)`. -/
def pyGet (d : PyDict) (key : String) (dfl : PyVal) : PyVal :=
  (dget d key).getD dfl

/-- `d.get(key)` with the Python default `None`. -/
def pyGetN (d : PyDict) (key : String) : PyVal :=
  (dget d key).getD .none

/-- `v.get(key, dfl)` on a value known to be a dict (replies from the
presentation thread); a non-dict reply would raise in Python, the default
stands in for that unreachable case. -/
def pyValGet (v : PyVal) (key : String) (dfl : PyVal) : PyVal :=
  match v with
  | .dict d => pyGet d key dfl
  | _ => dfl

/-- Length of a `PyList`. -/
def PyList.length : PyList → Int
  | .nil => 0
  | .cons _ rest => 1 + PyList.length rest

/-- `len(v)` for list values (the only use sites are on reply fields that are
lists); non-lists fall back to 0. -/
def pyLen : PyVal → Int
  | .list xs => xs.length
  | _ => 0

/-- Python truthiness, as used by `if not html`, `if not content`, etc. -/
def truthy : PyVal → Bool
  | .str s => s ≠ ""
  | .int n => n ≠ 0
  | .bool b => b
  | .none => false
  | .list xs => xs ≠ .nil
  | .dict d => d ≠ .nil

/-- `type(value).__name__`. -/
def pyTypeName : PyVal → String
  | .str _ => "str"
  | .int _ => "int"
  | .bool _ => "bool"
  | .none => "NoneType"
  | .list _ => "list"
  | .dict _ => "dict"

/-- `isinstance(v, str)`. -/
def isStr : PyVal → Bool
  | .str _ => true
  | _ => false

/-- `isinstance(v, bool)`.  A Python `int` is not a `bool`. -/
def isBool : PyVal → Bool
  | .bool _ => true
  | _ => false

/-- `isinstance(v, int)`.  In Python `bool` is a subtype of `int`, so `True`
and `False` satisfy this check. -/
def isIntLike : PyVal → Bool
  | .int _ => true
  | .bool _ => true
  | _ => false

/-- Numeric value of an int-like `PyVal` (`True == 1`, `False == 0`); other
cases sit behind `isinstance` guards and are unreachable. -/
def pyInt : PyVal → Int
  | .int n => n
  | .bool b => if b then 1 else 0
  | _ => 0

/-- `str(v)`, used for f-string interpolation inside error messages. -/
def pyToStr : PyVal → String
  | .str s => s
  | .int n => toString n
  | .bool b => if b then "True" else "False"
  | .none => "None"
  | .list _ => "[...]"
  | .dict _ => "\x7b...\x7d"

mutual
/-- `json.dumps` on the modelled values.  The source serialises with
`indent=2`; the exact whitespace of the rendering is not observable by any
claim, so a compact rendering is used. -/
def dumps : PyVal → String
  | .str s => "\"" ++ s ++ "\""
  | .int n => toString n
  | .bool b => if b then "true" else "false"
  | .none => "null"
  | .list xs => "[" ++ dumpsList xs ++ "]"
  | .dict xs => "\x7b" ++ dumpsDict xs ++ "\x7d"

def dumpsList : PyList → String
  | .nil => ""
  | .cons x .nil => dumps x
  | .cons x (.cons y rest) => dumps x ++ ", " ++ dumpsList (.cons y rest)

def dumpsDict : PyDict → String
  | .nil => ""
  | .cons k v .nil => "\"" ++ k ++ "\": " ++ dumps v
  | .cons k v (.cons k2 v2 rest) =>
      "\"" ++ k ++ "\": " ++ dumps v ++ ", " ++ dumpsDict (.cons k2 v2 rest)
end

/-! ## The declared parameter schema (`TOOLS[0]["real_parameters"]`) -/

/-- The `type` field of a property schema. -/
inductive PType where
  | string | integer | boolean | object | array | number
deriving DecidableEq, Repr

/-- One property of `real_parameters.properties`: its declared type, optional
`enum`, and optional `default`. -/
structure PropSchema where
  type : PType
  enumVals : Option (List String)
  dflt : Option PyVal
deriving DecidableEq, Repr

/-- The `operation` enum of the schema. -/
def operationEnum : List String :=
  ["readme", "show_popup", "show_dialog", "test_queue", "collect_api_key",
   "show_toast", "send_message", "check_messages", "show_dashboard",
   "hide_dashboard", "get_message_history", "clear_messages"]

/-- `TOOLS[0]["real_parameters"]["properties"]`, in source order.  The source
dict literal declares `"message"` twice; per Python semantics the second
occurrence (the toast message schema, which has no default) wins, at the
position of the first occurrence. -/
def properties : List (String × PropSchema) :=
  [("operation", ⟨.string, some operationEnum, Option.none⟩),
   ("html", ⟨.string, Option.none, Option.none⟩),
   ("url", ⟨.string, Option.none, Option.none⟩),
   ("title", ⟨.string, Option.none, some (.str "User Interface")⟩),
   ("width", ⟨.integer, Option.none, some (.int 600)⟩),
   ("height", ⟨.integer, Option.none, some (.int 400)⟩),
   ("modal", ⟨.boolean, Option.none, some (.bool true)⟩),
   ("timeout", ⟨.integer, Option.none, some (.int 0)⟩),
   ("message", ⟨.string, Option.none, Option.none⟩),
   ("center_on_screen", ⟨.boolean, Option.none, some (.bool true)⟩),
   ("always_on_top", ⟨.boolean, Option.none, some (.bool true)⟩),
   ("bring_to_front", ⟨.boolean, Option.none, some (.bool true)⟩),
   ("auto_resize", ⟨.boolean, Option.none, some (.bool false)⟩),
   ("resizable", ⟨.boolean, Option.none, some (.bool false)⟩),
   ("wait_for_response", ⟨.boolean, Option.none, some (.bool true)⟩),
   ("service_name", ⟨.string, Option.none, some (.str "API Service")⟩),
   ("service_url", ⟨.string, Option.none, some (.str "")⟩),
   ("level", ⟨.string, some ["info", "warning", "error", "success"], some (.str "info")⟩),
   ("content", ⟨.string, Option.none, Option.none⟩),
   ("msg_type", ⟨.string, some ["question", "status", "notification", "response"], some (.str "status")⟩),
   ("priority", ⟨.string, some ["low", "normal", "high", "critical"], some (.str "normal")⟩),
   ("requires_response", ⟨.boolean, Option.none, some (.bool false)⟩),
   ("show_dashboard", ⟨.boolean, Option.none, some (.bool true)⟩),
   ("mark_as_read", ⟨.boolean, Option.none, some (.bool true)⟩),
   ("filter_type", ⟨.string, Option.none, Option.none⟩),
   ("since_timestamp", ⟨.number, Option.none, Option.none⟩),
   ("tool_unlock_token", ⟨.string, Option.none, Option.none⟩)]

/-- The declared parameter names. -/
def propNames : List String := properties.map Prod.fst

/-- The type-validation chain of `validate_parameters`: `string`, `object`,
`integer`, `boolean` and `array` get an `isinstance` check; `number`
(only `since_timestamp`) has no branch in the source and so never fails.
`isinstance(True, int)` holds in Python, so bools pass the `integer` check. -/
def typeOk : PType → PyVal → Bool
  | .string, v => isStr v
  | .object, v => (match v with | .dict _ => true | _ => false)
  | .integer, v => isIntLike v
  | .boolean, v => isBool v
  | .array, v => (match v with | .list _ => true | _ => false)
  | .number, _ => true

/-- The per-type validation error text of `validate_parameters`. -/
def typeCheckMsg (name : String) (t : PType) (v : PyVal) : String :=
  "Parameter \x27" ++ name ++ "\x27 " ++
    (match t with
     | .string => "must be a string, got " ++ pyTypeName v ++ ". Please provide a string value."
     | .object => "must be an object/dictionary, got " ++ pyTypeName v ++ ". Please provide a dictionary value."
     | .integer => "must be an integer, got " ++ pyTypeName v ++ ". Please provide an integer value."
     | .boolean => "must be a boolean, got " ++ pyTypeName v ++ ". Please provide true or false."
     | .array => "must be an array/list, got " ++ pyTypeName v ++ ". Please provide a list value."
     | .number => "")

/-- `value in allowed_values` for an enum of strings. -/
def enumMember (v : PyVal) (allowed : List String) : Bool :=
  match v with
  | .str s => allowed.contains s
  | _ => false

/-- The enum-violation error text. -/
def enumMsg (name : String) (allowed : List String) (v : PyVal) : String :=
  "Parameter \x27" ++ name ++ "\x27 must be one of [" ++
    String.intercalate ", " (allowed.map (fun a => "\x27" ++ a ++ "\x27")) ++
    "], got \x27" ++ pyToStr v ++ "\x27. Please use one of the allowed values."

/-- The per-property loop of `validate_parameters`: for each declared
property in order, type-check and enum-check a provided value, apply the
declared default when absent (the `elif param_name in required` double-check
branch of the source is unreachable after the missing-required set check but
is translated faithfully). -/
def checkProps : List (String × PropSchema) → PyDict → List String → Except String PyDict
  | [], _, _ => .ok .nil
  | (name, sch) :: rest, input, required =>
    match dget input name with
    | some v =>
      if typeOk sch.type v = false then .error (typeCheckMsg name sch.type v)
      else
        match sch.enumVals with
        | some allowed =>
          if enumMember v allowed then
            match checkProps rest input required with
            | .ok out => .ok (.cons name v out)
            | .error e => .error e
          else .error (enumMsg name allowed v)
        | Option.none =>
          match checkProps rest input required with
          | .ok out => .ok (.cons name v out)
          | .error e => .error e
    | Option.none =>
      if required.contains name then
        .error ("Required parameter \x27" ++ name ++ "\x27 is missing. Please provide this required parameter.")
      else
        match sch.dflt with
        | some d =>
          match checkProps rest input required with
          | .ok out => .ok (.cons name d out)
          | .error e => .error e
        | Option.none => checkProps rest input required

/-- Keys of the input that are not declared in the schema.  (The source
renders the sets sorted in the message; the message keeps encounter order
here, which no claim observes.) -/
def unexpectedKeys (input : PyDict) : List String :=
  (PyDict.keys input).filter (fun k => ¬ propNames.contains k)

/-- The `required` list of `validate_parameters`: only `operation` when the
operation is `readme`, otherwise `operation` and `tool_unlock_token`. -/
def requiredFor (input : PyDict) : List String :=
  if dget input "operation" = some (.str "readme") then ["operation"]
  else ["operation", "tool_unlock_token"]

/-- The required keys the input fails to provide. -/
def missingRequired (input : PyDict) : List String :=
  (requiredFor input).filter (fun k => dget input k = Option.none)

/-- `validate_parameters(input_param)`: unexpected keys, then missing
required keys, then the per-property type/enum/default pass.  For
`operation == "readme"` only `operation` is required. -/
def validate_parameters (input : PyDict) : Except String PyDict :=
  if unexpectedKeys input ≠ [] then
    .error ("Unexpected parameters provided: " ++
      String.intercalate ", " (unexpectedKeys input) ++
      ". Expected parameters are: " ++ String.intercalate ", " propNames ++
      ". Please consult the attached doc.")
  else if missingRequired input ≠ [] then
    .error ("Missing required parameters: " ++
      String.intercalate ", " (missingRequired input) ++
      ". Required parameters are: " ++ String.intercalate ", " (requiredFor input))
  else checkProps properties input (requiredFor input)

/-! ## Documentation, result envelopes, environment -/

/-- Fragment of the documentation JSON up to the first embedding of the
installation token (inside `TOOLS[0]["readme"]`).  The multi-kilobyte
documentation literal of the source is abbreviated around its two token
embeddings; no claim observes the elided prose. -/
def docPart1 : String :=
  "\x7b \"description\": \"Display HTML popup windows to interact with users. " ++
  "... Your tool_unlock_token for this installation is: "

/-- Fragment between the two token embeddings: the rest of the readme text
and the schema dump up to the `tool_unlock_token` description. -/
def docPart2 : String :=
  " You MUST include tool_unlock_token in the input dict for all operations. ...\", " ++
  "\"parameters\": \x7b ... \"tool_unlock_token\": \x7b\"type\": \"string\", " ++
  "\"description\": \"Security token, "

/-- Trailing fragment of the documentation JSON. -/
def docPart3 : String :=
  ", obtained from readme operation, or re-provided any time the AI lost context " ++
  "or gave a wrong token\"\x7d ... \x7d\x7d"

/-- `readme(with_readme)`: the empty string when `with_readme` is false,
otherwise two newlines followed by the JSON dump of the documentation and
the schema, both of which embed the installation token. -/
def readme (tok : String) (with_readme : Bool) : String :=
  if with_readme then "\n\n" ++ docPart1 ++ tok ++ docPart2 ++ tok ++ docPart3
  else ""

/-- An MCP result envelope
`{"content": [{"type": "text", "text": text}], "isError": isError}` —
every return path of `user.py` produces exactly this shape with a single
text item, so the envelope is carried as its two variable components. -/
structure ToolResult where
  text : String
  isError : Bool
deriving DecidableEq, Repr

/-- The envelope dict a `ToolResult` stands for. -/
def mcp_envelope (r : ToolResult) : PyVal :=
  .dict (.cons "content"
           (.list (.cons (.dict (.cons "type" (.str "text")
                                  (.cons "text" (.str r.text) .nil))) .nil))
           (.cons "isError" (.bool r.isError) .nil))

/-- `create_error_response(error_msg, with_readme)`: an `isError` envelope
whose text is the message followed by the (optional) documentation.
(The `include_traceback` parameter only affects logging.) -/
def create_error_response (tok : String) (error_msg : String) (with_readme : Bool) : ToolResult :=
  ⟨error_msg ++ readme tok with_readme, true⟩

/-- State of the `engine` object reached through `sys.modules["__main__"]`,
used only by the toast path. -/
inductive EngineState where
  | noMain | noEngine | noEmit | raises | ok
deriving DecidableEq, Repr

/-- The per-call environment: whether `sys.modules.get("friday_ui_queue")`
is registered, when (if ever) the presentation thread writes this request
reply into the fresh per-request reply queue and what it writes, the current
time, the generated `uuid4` string, and the engine state for toasts. -/
structure Env where
  queueExists : Bool
  replyAt : Option Int
  replyVal : PyVal
  now : Int
  uuid : String
  engine : EngineState
deriving DecidableEq, Repr

/-- `reply_queue.get(timeout=bound)`: the reply if the consumer writes it
within the bound, otherwise `queue.Empty` (modelled as `none`). -/
def reply_get (env : Env) (bound : Int) : Option PyVal :=
  match env.replyAt with
  | some t => if t ≤ bound then some env.replyVal else Option.none
  | Option.none => Option.none

/-- A `UIRequest` dataclass message put on the consumer queue (the identity
of its `reply_queue` is per-call and carried by `Env`). -/
structure UIRequest where
  operation : String
  data : PyDict
deriving DecidableEq, Repr

/-! ## The capability gate (token validation in `handle_user`) -/

/-- `s.split(sep, 1)` when the separator occurs: the part before the first
occurrence and everything after it; `none` when the separator is absent
(Python then returns the one-element list, which the caller rejects). -/
def splitOnceChar (sep : Char) : List Char → Option (List Char × List Char)
  | [] => Option.none
  | c :: rest =>
      if c = sep then some ([], rest)
      else (splitOnceChar sep rest).map (fun p => (c :: p.1, p.2))

/-- The inter-tool (delegation) token check of `handle_user`: a truthy token
starting with `"-"`, whose remainder splits on the first `"-"` into exactly
two parts, is a delegation token authorized iff the trailing part equals the
installation token. -/
def is_inter_tool_call (s tok : String) : Bool :=
  match s.toList with
  | '-' :: rest =>
      match splitOnceChar '-' rest with
      | some p => p.2 = tok.toList
      | Option.none => false
  | _ => false

/-- The combined gate condition of `handle_user`
(`provided_token != TOOL_UNLOCK_TOKEN and not is_inter_tool_call` negated):
direct equality with the installation token, or a valid delegation token. -/
def token_authorized (s tok : String) : Bool :=
  s = tok || is_inter_tool_call s tok

/-! ## Queue-backed operations -/

/-- `USER_TOOL_VERSION`. -/
def USER_TOOL_VERSION : String := "2025.09.13.009"

/-- The fixed reply bound of `_test_queue_message_passing` (`max_wait_time = 10`). -/
def TEST_QUEUE_MAX_WAIT : Int := 10

/-- The fixed confirmation bound of `send_message_to_user` (`timeout=5`). -/
def SEND_MESSAGE_MAX_WAIT : Int := 5

/-- The fixed reply bound of `check_user_messages` (`timeout=5`). -/
def CHECK_MESSAGES_MAX_WAIT : Int := 5

/-- The fixed reply bound of `show_message_dashboard` (`timeout=10`). -/
def SHOW_DASHBOARD_MAX_WAIT : Int := 10

/-- The fixed reply bound of `hide_message_dashboard` (`timeout=5`). -/
def HIDE_DASHBOARD_MAX_WAIT : Int := 5

/-- The fixed reply bound of `get_message_history` (`timeout=5`). -/
def GET_HISTORY_MAX_WAIT : Int := 5

/-- The fixed reply bound of `clear_message_queues` (`timeout=5`). -/
def CLEAR_MESSAGES_MAX_WAIT : Int := 5

/-- The reply dict returned when `sys.modules.get("friday_ui_queue")` is
`None`. -/
def no_queue_reply : PyVal :=
  .dict (.cons "status" (.str "error")
          (.cons "error" (.str "No UI request queue available. Ensure friday.py is running with Qt support.") .nil))

/-- The immediate reply of fire-and-forget mode. -/
def async_success_reply : PyVal :=
  .dict (.cons "status" (.str "success")
          (.cons "message" (.str "Window opened successfully (async mode - not waiting for user response)")
            (.cons "async" (.bool true) .nil)))

/-- The reply dict produced when the producer-side wait elapses. -/
def timeout_reply (bound : Int) : PyVal :=
  .dict (.cons "status" (.str "timeout")
          (.cons "error" (.str ("UI request timed out after " ++ toString bound ++ " seconds")) .nil))

/-- `max_wait_time = timeout + 5 if timeout > 0 else 65`. -/
def showMaxWait (timeout : Int) : Int :=
  if timeout > 0 then timeout + 5 else 65

/-- The `request_data` payload of `_show_webengine_window`, in source order. -/
def show_request_data (html url title width height modal timeout cos aot btf ar rz : PyVal) : PyDict :=
  .cons "html" html (.cons "url" url (.cons "title" title (.cons "width" width
    (.cons "height" height (.cons "modal" modal (.cons "timeout" timeout
      (.cons "center_on_screen" cos (.cons "always_on_top" aot
        (.cons "bring_to_front" btf (.cons "auto_resize" ar
          (.cons "resizable" rz .nil)))))))))))

/-- `_show_webengine_window`: look up the consumer queue, enqueue a
`show_popup` `UIRequest`, return immediately in fire-and-forget mode, and
otherwise wait on the reply queue with bound `showMaxWait timeout`.
Parameters are kept in source order. -/
def show_webengine_window (env : Env)
    (html title width height modal timeout cos aot btf ar url rz wfr : PyVal) :
    PyVal × List UIRequest :=
  if env.queueExists = false then (no_queue_reply, [])
  else
    let req : UIRequest :=
      ⟨"show_popup", show_request_data html url title width height modal timeout cos aot btf ar rz⟩
    if truthy wfr = false then (async_success_reply, [req])
    else
      match reply_get env (showMaxWait (pyInt timeout)) with
      | some response => (response, [req])
      | Option.none => (timeout_reply (showMaxWait (pyInt timeout)), [req])

/-- The body of `show_html_window` over the extracted parameter values:
html/url mutual-exclusion and presence by Python truthiness, per-parameter
`isinstance` re-validation, then the WebEngine window request; a successful
request is wrapped in a non-error envelope (including replies whose own
`status` is `timeout` or `error`). -/
def show_html_window_core (tok : String) (env : Env)
    (html url title width height resizable modal timeout cos aot btf ar wfr : PyVal) :
    ToolResult × List UIRequest :=
  if truthy html = false && truthy url = false then
    (create_error_response tok "Missing required parameter: must provide either \x27html\x27 or \x27url\x27" true, [])
  else if truthy html && truthy url then
    (create_error_response tok "Cannot specify both \x27html\x27 and \x27url\x27 - choose one" true, [])
  else if truthy html && !(isStr html) then
    (create_error_response tok ("Parameter \x27html\x27 must be a string, got " ++ pyTypeName html ++ ". Please provide HTML content as a string.") true, [])
  else if truthy url && !(isStr url) then
    (create_error_response tok ("Parameter \x27url\x27 must be a string, got " ++ pyTypeName url ++ ".") true, [])
  else
    if !(isStr title) then
      (create_error_response tok ("Parameter \x27title\x27 must be a string, got " ++ pyTypeName title ++ ".") false, [])
    else if !(isIntLike width) || pyInt width ≤ 0 then
      (create_error_response tok ("Parameter \x27width\x27 must be a positive integer, got " ++ pyToStr width ++ ".") false, [])
    else if !(isIntLike height) || pyInt height ≤ 0 then
      (create_error_response tok ("Parameter \x27height\x27 must be a positive integer, got " ++ pyToStr height ++ ".") false, [])
    else if !(isBool modal) then
      (create_error_response tok ("Parameter \x27modal\x27 must be a boolean, got " ++ pyTypeName modal ++ ".") false, [])
    else if !(isIntLike timeout) || pyInt timeout < 0 then
      (create_error_response tok ("Parameter \x27timeout\x27 must be a non-negative integer, got " ++ pyToStr timeout ++ ".") false, [])
    else if !(isBool cos) then
      (create_error_response tok ("Parameter \x27center_on_screen\x27 must be a boolean, got " ++ pyTypeName cos ++ ".") false, [])
    else if !(isBool aot) then
      (create_error_response tok ("Parameter \x27always_on_top\x27 must be a boolean, got " ++ pyTypeName aot ++ ".") false, [])
    else if !(isBool btf) then
      (create_error_response tok ("Parameter \x27bring_to_front\x27 must be a boolean, got " ++ pyTypeName btf ++ ".") false, [])
    else if !(isBool ar) then
      (create_error_response tok ("Parameter \x27auto_resize\x27 must be a boolean, got " ++ pyTypeName ar ++ ".") false, [])
    else if !(isBool resizable) then
      (create_error_response tok ("Parameter \x27resizable\x27 must be a boolean, got " ++ pyTypeName resizable ++ ".") false, [])
    else if !(isBool wfr) then
      (create_error_response tok ("Parameter \x27wait_for_response\x27 must be a boolean, got " ++ pyTypeName wfr ++ ".") false, [])
    else
      let r := show_webengine_window env html title width height modal timeout cos aot btf ar url resizable wfr
      (⟨dumps r.1, false⟩, r.2)

/-- `show_html_window(params)`: extract the content parameters and the
windowing options (with their source defaults), then run the validation and
request body. -/
def show_html_window (tok : String) (env : Env) (params : PyDict) : ToolResult × List UIRequest :=
  show_html_window_core tok env (pyGetN params "html") (pyGetN params "url")
    (pyGet params "title" (.str "User Interface"))
    (pyGet params "width" (.int 600))
    (pyGet params "height" (.int 400))
    (pyGet params "resizable" (.bool false))
    (pyGet params "modal" (.bool true))
    (pyGet params "timeout" (.int 0))
    (pyGet params "center_on_screen" (.bool true))
    (pyGet params "always_on_top" (.bool true))
    (pyGet params "bring_to_front" (.bool true))
    (pyGet params "auto_resize" (.bool false))
    (pyGet params "wait_for_response" (.bool true))

/-! ## Remaining operations -/

/-- `_test_queue_message_passing(message)`: same queue lookup / enqueue /
bounded wait as the window path, with a fixed 10-second bound. -/
def test_queue_message_passing (env : Env) (message : PyVal) : PyVal × List UIRequest :=
  if env.queueExists = false then (no_queue_reply, [])
  else
    let req : UIRequest :=
      ⟨"test_queue", .cons "message" message
        (.cons "timestamp" (.int env.now)
          (.cons "user_tool_version" (.str USER_TOOL_VERSION) .nil))⟩
    match reply_get env TEST_QUEUE_MAX_WAIT with
    | some response => (response, [req])
    | Option.none =>
        (.dict (.cons "status" (.str "timeout")
                 (.cons "error" (.str "Queue test timed out after 10 seconds") .nil)), [req])

/-- `test_queue_communication(params)`: the test reply (error, timeout or
response dict alike) is serialised into a non-error envelope. -/
def test_queue_communication (tok : String) (env : Env) (params : PyDict) : ToolResult × List UIRequest :=
  let message := pyGet params "message" (.str "Hello from user.py")
  let r := test_queue_message_passing env message
  ((⟨dumps r.1, false⟩ : ToolResult), r.2)

/-- `_emit_toast_message(message, level)`: reaches the Qt engine through
`sys.modules["__main__"]` (not through the consumer queue); the access
failures and the success case follow `Env.engine`.  The dynamic exception
text of the `raises` case is abbreviated to its literal prefix. -/
def emit_toast_message (env : Env) (message level : PyVal) : PyVal :=
  match env.engine with
  | .noMain =>
      .dict (.cons "status" (.str "error")
              (.cons "error" (.str "Could not access friday.py module. Ensure server was started via friday.py.") .nil))
  | .noEngine =>
      .dict (.cons "status" (.str "error")
              (.cons "error" (.str "No engine instance available. Ensure friday.py is running with Qt support.") .nil))
  | .noEmit =>
      .dict (.cons "status" (.str "error")
              (.cons "error" (.str "Engine does not have _emit_message method. Ensure friday.py version supports toast messages.") .nil))
  | .raises =>
      .dict (.cons "status" (.str "error")
              (.cons "error" (.str "Failed to emit toast message: ") .nil))
  | .ok =>
      .dict (.cons "status" (.str "success")
              (.cons "message" (.str "Toast notification sent successfully")
                (.cons "level" level (.cons "text" message .nil))))

/-- `show_toast_notification(params)`. -/
def show_toast_notification (tok : String) (env : Env) (params : PyDict) : ToolResult × List UIRequest :=
  let message := pyGetN params "message"
  let level := pyGet params "level" (.str "info")
  if truthy message = false then
    (create_error_response tok "Missing required parameter: \x27message\x27 is required for show_toast operation" true, [])
  else if !(isStr message) then
    (create_error_response tok ("Parameter \x27message\x27 must be a string, got " ++ pyTypeName message) false, [])
  else if !(enumMember level ["info", "warning", "error", "success"]) then
    (create_error_response tok ("Parameter \x27level\x27 must be one of [\x27info\x27, \x27warning\x27, \x27error\x27, \x27success\x27], got \x27" ++ pyToStr level ++ "\x27") false, [])
  else ((⟨dumps (emit_toast_message env message level), false⟩ : ToolResult), [])

/-- The dialog template of `_generate_api_key_collection_html`.  The
generated HTML interpolates external web-server configuration
(`ragtag.shared_config`, outside this tool); the template is collapsed to an
opaque non-empty literal, faithful in the one respect any caller observes:
it is a non-empty string. -/
def api_key_collection_html : String := "<!DOCTYPE html><html>...</html>"

/-- `collect_api_key_from_user(params)`: builds fixed window parameters
around the generated dialog HTML and delegates to `show_html_window`. -/
def collect_api_key_from_user (tok : String) (env : Env) (params : PyDict) : ToolResult × List UIRequest :=
  let service_name := pyGet params "service_name" (.str "API Service")
  show_html_window tok env (PyDict.ofList
    [("html", .str api_key_collection_html),
     ("title", .str (pyToStr service_name ++ " API Key Required")),
     ("width", .int 550), ("height", .int 450), ("modal", .bool true),
     ("timeout", .int 300), ("center_on_screen", .bool true),
     ("always_on_top", .bool true), ("bring_to_front", .bool true),
     ("auto_resize", .bool false), ("operation", .str "show_dialog")])

/-- `send_message_to_user(params)`: builds the message record (uuid,
timestamp, direction ai_to_user, pending status), enqueues a `send_message`
request and waits up to 5 seconds for the confirmation. -/
def send_message_to_user (tok : String) (env : Env) (params : PyDict) : ToolResult × List UIRequest :=
  let content := pyGetN params "content"
  if truthy content = false then
    (create_error_response tok "Missing required parameter: content" false, [])
  else
    let msg_type := pyGet params "msg_type" (.str "status")
    let priority := pyGet params "priority" (.str "normal")
    let requires_response := pyGet params "requires_response" (.bool false)
    let show_dash := pyGet params "show_dashboard" (.bool true)
    let message : PyVal :=
      .dict (.cons "id" (.str env.uuid) (.cons "timestamp" (.int env.now)
        (.cons "direction" (.str "ai_to_user") (.cons "type" msg_type
          (.cons "priority" priority (.cons "content" content
            (.cons "requires_response" requires_response
              (.cons "status" (.str "pending") .nil))))))))
    if env.queueExists = false then
      (create_error_response tok "No UI request queue available. Ensure friday.py is running." false, [])
    else
      let req : UIRequest :=
        ⟨"send_message", .cons "operation" (.str "send_message")
          (.cons "message" message (.cons "show_dashboard" show_dash .nil))⟩
      match reply_get env SEND_MESSAGE_MAX_WAIT with
      | some _ =>
          ((⟨dumps (.dict (.cons "message_id" (.str env.uuid)
              (.cons "status" (.str "queued")
                (.cons "timestamp" (.int env.now) .nil)))), false⟩ : ToolResult), [req])
      | Option.none =>
          (create_error_response tok "Timeout waiting for message queue confirmation" false, [req])

/-- `check_user_messages(params)`: enqueues a `check_messages` request and
waits up to 5 seconds; the reply field `messages` (default `[]`) is passed
back with its count. -/
def check_user_messages (tok : String) (env : Env) (params : PyDict) : ToolResult × List UIRequest :=
  let mark_as_read := pyGet params "mark_as_read" (.bool true)
  let filter_type := pyGetN params "filter_type"
  let since_timestamp := pyGetN params "since_timestamp"
  if env.queueExists = false then
    (create_error_response tok "No UI request queue available. Ensure friday.py is running." false, [])
  else
    let req : UIRequest :=
      ⟨"check_messages", .cons "operation" (.str "check_messages")
        (.cons "mark_as_read" mark_as_read
          (.cons "filter_type" filter_type
            (.cons "since_timestamp" since_timestamp .nil)))⟩
    match reply_get env CHECK_MESSAGES_MAX_WAIT with
    | some response =>
        let messages := pyValGet response "messages" (.list .nil)
        ((⟨dumps (.dict (.cons "messages" messages
            (.cons "count" (.int (pyLen messages)) .nil))), false⟩ : ToolResult), [req])
    | Option.none =>
        (create_error_response tok "Timeout waiting for message check response" false, [req])

/-- `show_message_dashboard(params)`: `show_dashboard` request, 10-second
bound. -/
def show_message_dashboard (tok : String) (env : Env) (params : PyDict) : ToolResult × List UIRequest :=
  if env.queueExists = false then
    (create_error_response tok "No UI request queue available. Ensure friday.py is running." false, [])
  else
    let req : UIRequest := ⟨"show_dashboard", .cons "operation" (.str "show_dashboard") .nil⟩
    match reply_get env SHOW_DASHBOARD_MAX_WAIT with
    | some _ =>
        ((⟨dumps (.dict (.cons "status" (.str "success")
            (.cons "message" (.str "Dashboard shown") .nil))), false⟩ : ToolResult), [req])
    | Option.none =>
        (create_error_response tok "Timeout waiting for dashboard to show" false, [req])

/-- `hide_message_dashboard(params)`: `hide_dashboard` request, 5-second
bound. -/
def hide_message_dashboard (tok : String) (env : Env) (params : PyDict) : ToolResult × List UIRequest :=
  if env.queueExists = false then
    (create_error_response tok "No UI request queue available." false, [])
  else
    let req : UIRequest := ⟨"hide_dashboard", .cons "operation" (.str "hide_dashboard") .nil⟩
    match reply_get env HIDE_DASHBOARD_MAX_WAIT with
    | some _ =>
        ((⟨dumps (.dict (.cons "status" (.str "success")
            (.cons "message" (.str "Dashboard hidden") .nil))), false⟩ : ToolResult), [req])
    | Option.none =>
        (create_error_response tok "Timeout waiting for dashboard to hide" false, [req])

/-- `get_message_history(params)`: `get_message_history` request, 5-second
bound; the reply field `history` (default `[]`) is passed back with its
count. -/
def get_message_history (tok : String) (env : Env) (params : PyDict) : ToolResult × List UIRequest :=
  if env.queueExists = false then
    (create_error_response tok "No UI request queue available." false, [])
  else
    let req : UIRequest := ⟨"get_message_history", .cons "operation" (.str "get_message_history") .nil⟩
    match reply_get env GET_HISTORY_MAX_WAIT with
    | some response =>
        let history := pyValGet response "history" (.list .nil)
        ((⟨dumps (.dict (.cons "history" history
            (.cons "count" (.int (pyLen history)) .nil))), false⟩ : ToolResult), [req])
    | Option.none =>
        (create_error_response tok "Timeout waiting for message history" false, [req])

/-- `clear_message_queues(params)`: `clear_messages` request, 5-second
bound. -/
def clear_message_queues (tok : String) (env : Env) (params : PyDict) : ToolResult × List UIRequest :=
  if env.queueExists = false then
    (create_error_response tok "No UI request queue available." false, [])
  else
    let req : UIRequest := ⟨"clear_messages", .cons "operation" (.str "clear_messages") .nil⟩
    match reply_get env CLEAR_MESSAGES_MAX_WAIT with
    | some _ =>
        ((⟨dumps (.dict (.cons "status" (.str "success")
            (.cons "message" (.str "Message queues cleared") .nil))), false⟩ : ToolResult), [req])
    | Option.none =>
        (create_error_response tok "Timeout waiting for clear confirmation" false, [req])

/-! ## The top-level handler -/

/-- The auth-failure message of `handle_user`. -/
def invalid_token_msg : String :=
  "Invalid or missing tool_unlock_token: this indicates your context is missing the following details, which are needed to correctly use this tool:"

/-- The head of `handle_user`: pop the synthetic `handler_info` key, then
collapse the single-`input` placeholder when present. -/
def collapse_input (input_param : PyDict) : PyVal :=
  let p0 := dpop input_param "handler_info"
  match dget p0 "input" with
  | some v => v
  | Option.none => .dict p0

/-- The post-gate operation dispatch of `handle_user` (the body following a
successful token check): schema validation, the popup/dialog `modal`
adjustment, and the per-operation handlers.  The trailing unknown-operation
branch is unreachable after enum validation but translated faithfully. -/
def dispatch (tok : String) (env : Env) (d : PyDict) : ToolResult × List UIRequest :=
  match validate_parameters d with
  | .error e => (create_error_response tok e true, [])
  | .ok validated =>
    let operation := dget validated "operation"
    if operation = some (.str "test_queue") then test_queue_communication tok env validated
    else if operation = some (.str "show_toast") then show_toast_notification tok env validated
    else if operation = some (.str "collect_api_key") then collect_api_key_from_user tok env validated
    else if operation = some (.str "show_popup") then
      show_html_window tok env (dset validated "modal" (.bool false))
    else if operation = some (.str "show_dialog") then
      (if dget validated "modal" = Option.none then
        show_html_window tok env (dset validated "modal" (.bool true))
       else show_html_window tok env validated)
    else if operation = some (.str "send_message") then send_message_to_user tok env validated
    else if operation = some (.str "check_messages") then check_user_messages tok env validated
    else if operation = some (.str "show_dashboard") then show_message_dashboard tok env validated
    else if operation = some (.str "hide_dashboard") then hide_message_dashboard tok env validated
    else if operation = some (.str "get_message_history") then get_message_history tok env validated
    else if operation = some (.str "clear_messages") then clear_message_queues tok env validated
    else if operation = some (.str "readme") then ((⟨readme tok true, false⟩ : ToolResult), [])
    else
      (create_error_response tok ("Unknown operation: \x27" ++
        (match operation with | some v => pyToStr v | Option.none => "None") ++
        "\x27. Available operations: " ++ String.intercalate ", " operationEnum) true, [])

/-- `handle_user(input_param)`: collapse the input placeholder, serve
`readme` before any token check, reject non-dict inputs, run the capability
gate (a truthy non-string token raises `AttributeError` at
`provided_token.startswith`, which the enclosing handler surfaces as an
error envelope with documentation), then dispatch the validated operation. -/
def handle_user (tok : String) (env : Env) (input_param : PyDict) : ToolResult × List UIRequest :=
  match collapse_input input_param with
  | .dict d =>
    if dget d "operation" = some (.str "readme") then ((⟨readme tok true, false⟩ : ToolResult), [])
    else
      match dget d "tool_unlock_token" with
      | some (.str s) =>
          if token_authorized s tok then dispatch tok env d
          else (create_error_response tok invalid_token_msg true, [])
      | some v =>
          if truthy v then
            (create_error_response tok ("Error in user interaction operation: \x27" ++
              pyTypeName v ++ "\x27 object has no attribute \x27startswith\x27") true, [])
          else (create_error_response tok invalid_token_msg true, [])
      | Option.none => (create_error_response tok invalid_token_msg true, [])
  | _ =>
    (create_error_response tok "Invalid input format. Expected dictionary with tool parameters." true, [])

/-! ## Basic lemmas -/

@[simp] theorem dget_nil (k : String) : dget .nil k = Option.none := rfl

@[simp] theorem dget_cons (k1 : String) (v : PyVal) (rest : PyDict) (k : String) :
    dget (.cons k1 v rest) k = if k1 = k then some v else dget rest k := rfl

theorem dget_dset_self : ∀ (d : PyDict) (k : String) (v : PyVal),
    dget (dset d k v) k = some v
  | .nil, k, v => by simp [dset]
  | .cons k1 v1 rest, k, v => by
      by_cases h : k1 = k
      · simp [dset, h]
      · simp [dset, h, dget_dset_self rest k v]

theorem append_left_ne {a : String} (b : String) (h : a ≠ "") : a ++ b ≠ "" := by
  intro hab
  apply h
  have hd := congrArg String.data hab
  simp only [String.data_append] at hd
  rcases List.append_eq_nil.mp hd with ⟨h1, _⟩
  cases a
  simp_all [String.data]

theorem create_error_response_text_ne (tok msg : String) (w : Bool) (h : msg ≠ "") :
    (create_error_response tok msg w).text ≠ "" := by
  simpa [create_error_response] using append_left_ne (readme tok w) h

/-! ## C1: the delegation-token grammar -/

theorem splitOnceChar_append (A B : List Char) (h : '-' ∉ A) :
    splitOnceChar '-' (A ++ '-' :: B) = some (A, B) := by
  induction A with
  | nil => simp [splitOnceChar]
  | cons c cs ih =>
      have hc : ¬ (c = '-') := fun e => h (by simp [e])
      have hcs : '-' ∉ cs := fun hm => h (List.mem_cons_of_mem _ hm)
      simp [splitOnceChar, hc, ih hcs]

theorem is_inter_tool_call_form (A B T : List Char) (hA : '-' ∉ A) :
    is_inter_tool_call (String.mk ('-' :: (A ++ '-' :: B))) (String.mk T) =
      decide (B = T) := by
  simp [is_inter_tool_call, String.toList, splitOnceChar_append A B hA]

/-- Tokens that do not begin with the delimiter never parse as delegation
tokens. -/
theorem is_inter_tool_call_no_dash (s tok : String)
    (h : ∀ rest, s.data ≠ '-' :: rest) : is_inter_tool_call s tok = false := by
  unfold is_inter_tool_call
  cases hs : s.toList with
  | nil => rfl
  | cons c rest =>
      by_cases hc : c = '-'
      · exact absurd (by simpa [String.toList, hc] using hs) (h rest)
      · simp [hc]

/-- C1: for every token of the delegation form, a leading delimiter, then a
calling token A free of the delimiter, then the delimiter, then a target
token B, the gate authorizes the call iff B equals the installation token,
regardless of A; and a token that does not begin with the delimiter is never
treated as a delegation token, being authorized only by direct equality.
(The installation token, generated outside this repository, is taken not to
begin with the delimiter, as the two token forms of the spec are disjoint.) -/
theorem delegation_token_authorized_iff :
    (∀ (T A B : List Char), '-' ∉ A → (∀ rest, T ≠ '-' :: rest) →
      (token_authorized (String.mk ('-' :: (A ++ '-' :: B))) (String.mk T) = true ↔ B = T)) ∧
    (∀ (s tok : String), (∀ rest, s.data ≠ '-' :: rest) →
      (token_authorized s tok = true ↔ s = tok)) := by
  constructor
  · intro T A B hA hT
    unfold token_authorized
    rw [is_inter_tool_call_form A B T hA]
    simp only [Bool.or_eq_true, decide_eq_true_eq]
    constructor
    · rintro (hs | hb)
      · exfalso
        exact hT (A ++ '-' :: B) ((congrArg String.data hs).symm)
      · exact hb
    · intro hb
      exact Or.inr hb
  · intro s tok h
    unfold token_authorized
    rw [is_inter_tool_call_no_dash s tok h]
    simp

/-- Concrete instance of the delegation-grammar theorem. -/
theorem delegation_token_authorized_iff_witness :
    (token_authorized (String.mk ('-' :: (['a'] ++ '-' :: ['t', 'k']))) (String.mk ['t', 'k']) = true
      ↔ (['t', 'k'] : List Char) = ['t', 'k']) ∧
    (token_authorized "tk" "tk" = true ↔ "tk" = "tk") := by
  constructor
  · exact delegation_token_authorized_iff.1 ['t', 'k'] ['a'] ['t', 'k']
      (by decide)
      (by intro rest h; injection h with h1 _; exact absurd h1 (by decide))
  · exact delegation_token_authorized_iff.2 "tk" "tk"
      (by intro rest h; injection h with h1 _; exact absurd h1 (by decide))

/-! ## Lemmas about `validate_parameters` -/

theorem checkProps_ok_keys_subset :
    ∀ (props : List (String × PropSchema)) (input : PyDict) (required : List String)
      (out : PyDict) (k : String),
      checkProps props input required = .ok out →
      k ∉ props.map Prod.fst → dget out k = Option.none := by
  intro props
  induction props with
  | nil =>
      intro input required out k h _
      unfold checkProps at h
      injection h with h'
      subst h'
      rfl
  | cons p rest ih =>
      obtain ⟨m, s⟩ := p
      intro input required out k h hk
      simp only [List.map_cons, List.mem_cons, not_or] at hk
      unfold checkProps at h
      repeat' split at h
      all_goals
        first
        | exact Except.noConfusion h
        | (injection h with h'
           subst h'
           simp only [dget, if_neg (Ne.symm hk.1)]
           exact ih _ _ _ _ (by assumption) hk.2)
        | exact ih _ _ _ _ h hk.2

theorem checkProps_ok_dget_provided :
    ∀ (props : List (String × PropSchema)) (input : PyDict) (required : List String)
      (out : PyDict), (props.map Prod.fst).Nodup →
      checkProps props input required = .ok out →
      ∀ (name : String) (sch : PropSchema) (v : PyVal),
        (name, sch) ∈ props → dget input name = some v → dget out name = some v := by
  intro props
  induction props with
  | nil =>
      intro input required out _ _ name sch v hmem _
      simp at hmem
  | cons p rest ih =>
      obtain ⟨m, s⟩ := p
      intro input required out hnd h name sch v hmem hin
      simp only [List.map_cons, List.nodup_cons] at hnd
      obtain ⟨hmnot, hnd2⟩ := hnd
      rcases List.mem_cons.mp hmem with heq | hmem2
      · obtain ⟨e1, e2⟩ := Prod.mk.injEq name sch m s |>.mp heq
        subst e1
        unfold checkProps at h
        rw [hin] at h
        repeat' split at h
        all_goals
          first
          | exact Except.noConfusion h
          | (injection h with h'
             subst h'
             simp_all [dget])
          | simp_all
      · have hname : ¬ (m = name) := by
          intro e
          subst e
          exact hmnot (List.mem_map.mpr ⟨(m, sch), hmem2, rfl⟩)
        unfold checkProps at h
        repeat' split at h
        all_goals
          first
          | exact Except.noConfusion h
          | (injection h with h'
             subst h'
             simp only [dget, if_neg hname]
             exact ih _ _ _ hnd2 (by assumption) name sch v hmem2 hin)
          | exact ih _ _ _ hnd2 h name sch v hmem2 hin

theorem checkProps_ok_dget_default :
    ∀ (props : List (String × PropSchema)) (input : PyDict) (required : List String)
      (out : PyDict), (props.map Prod.fst).Nodup →
      checkProps props input required = .ok out →
      ∀ (name : String) (sch : PropSchema) (dv : PyVal),
        (name, sch) ∈ props → dget input name = Option.none → sch.dflt = some dv →
        dget out name = some dv := by
  intro props
  induction props with
  | nil =>
      intro input required out _ _ name sch dv hmem _ _
      simp at hmem
  | cons p rest ih =>
      obtain ⟨m, s⟩ := p
      intro input required out hnd h name sch dv hmem hin hdf
      simp only [List.map_cons, List.nodup_cons] at hnd
      obtain ⟨hmnot, hnd2⟩ := hnd
      rcases List.mem_cons.mp hmem with heq | hmem2
      · obtain ⟨e1, e2⟩ := Prod.mk.injEq name sch m s |>.mp heq
        subst e1
        subst e2
        unfold checkProps at h
        rw [hin] at h
        repeat' split at h
        all_goals
          first
          | exact Except.noConfusion h
          | (injection h with h'
             subst h'
             simp_all [dget])
          | simp_all
      · have hname : ¬ (m = name) := by
          intro e
          subst e
          exact hmnot (List.mem_map.mpr ⟨(m, sch), hmem2, rfl⟩)
        unfold checkProps at h
        repeat' split at h
        all_goals
          first
          | exact Except.noConfusion h
          | (injection h with h'
             subst h'
             simp only [dget, if_neg hname]
             exact ih _ _ _ hnd2 (by assumption) name sch dv hmem2 hin hdf)
          | exact ih _ _ _ hnd2 h name sch dv hmem2 hin hdf

theorem checkProps_cons_error (m : String) (s : PropSchema) (rest : List (String × PropSchema))
    (input : PyDict) (required : List String) (e : String)
    (h : checkProps rest input required = .error e) :
    ∃ e2, checkProps ((m, s) :: rest) input required = .error e2 := by
  unfold checkProps
  repeat' split
  all_goals
    first
    | exact ⟨_, rfl⟩
    | exact ⟨e, h⟩
    | simp_all

theorem checkProps_error_of_bad_type :
    ∀ (props : List (String × PropSchema)) (input : PyDict) (required : List String)
      (name : String) (sch : PropSchema) (v : PyVal),
      (name, sch) ∈ props → dget input name = some v → typeOk sch.type v = false →
      ∃ e, checkProps props input required = .error e := by
  intro props
  induction props with
  | nil =>
      intro _ _ _ _ _ hmem _ _
      simp at hmem
  | cons p rest ih =>
      obtain ⟨m, s⟩ := p
      intro input required name sch v hmem hin ht
      rcases List.mem_cons.mp hmem with heq | hmem2
      · obtain ⟨e1, e2⟩ := Prod.mk.injEq name sch m s |>.mp heq
        subst e1
        subst e2
        refine ⟨typeCheckMsg name sch.type v, ?_⟩
        unfold checkProps
        rw [hin]
        simp [ht]
      · obtain ⟨e, he⟩ := ih input required name sch v hmem2 hin ht
        exact checkProps_cons_error m s rest input required e he

theorem checkProps_error_of_bad_enum :
    ∀ (props : List (String × PropSchema)) (input : PyDict) (required : List String)
      (name : String) (sch : PropSchema) (v : PyVal) (allowed : List String),
      (name, sch) ∈ props → dget input name = some v → sch.enumVals = some allowed →
      enumMember v allowed = false →
      ∃ e, checkProps props input required = .error e := by
  intro props
  induction props with
  | nil =>
      intro _ _ _ _ _ _ hmem _ _ _
      simp at hmem
  | cons p rest ih =>
      obtain ⟨m, s⟩ := p
      intro input required name sch v allowed hmem hin hen hnm
      rcases List.mem_cons.mp hmem with heq | hmem2
      · obtain ⟨e1, e2⟩ := Prod.mk.injEq name sch m s |>.mp heq
        subst e1
        subst e2
        by_cases ht : typeOk sch.type v = false
        · refine ⟨typeCheckMsg name sch.type v, ?_⟩
          unfold checkProps
          rw [hin]
          simp [ht]
        · refine ⟨enumMsg name allowed v, ?_⟩
          unfold checkProps
          rw [hin]
          simp [ht, hen, hnm]
      · obtain ⟨e, he⟩ := ih input required name sch v allowed hmem2 hin hen hnm
        exact checkProps_cons_error m s rest input required e he

theorem checkProps_error_ne :
    ∀ (props : List (String × PropSchema)) (input : PyDict) (required : List String)
      (e : String), checkProps props input required = .error e → e ≠ "" := by
  intro props
  induction props with
  | nil =>
      intro input required e h
      exact Except.noConfusion h
  | cons p rest ih =>
      obtain ⟨m, s⟩ := p
      intro input required e h
      unfold checkProps at h
      repeat' split at h
      all_goals
        first
        | exact Except.noConfusion h
        | exact ih _ _ _ h
        | (injection h with h'
           subst h'
           first
           | (repeat' apply append_left_ne)
             decide
           | exact ih _ _ _ (by assumption))

theorem properties_names_nodup : (properties.map Prod.fst).Nodup := by decide

theorem validate_parameters_ok_elim (input : PyDict) (out : PyDict)
    (h : validate_parameters input = .ok out) :
    checkProps properties input (requiredFor input) = .ok out := by
  unfold validate_parameters at h
  repeat' split at h
  all_goals first | exact Except.noConfusion h | exact h

theorem validate_parameters_ok_dget_provided (input : PyDict) (out : PyDict)
    (name : String) (sch : PropSchema) (v : PyVal)
    (h : validate_parameters input = .ok out) (hmem : (name, sch) ∈ properties)
    (hin : dget input name = some v) : dget out name = some v :=
  checkProps_ok_dget_provided properties input (requiredFor input) out
    properties_names_nodup (validate_parameters_ok_elim input out h) name sch v hmem hin

theorem validate_parameters_ok_dget_default (input : PyDict) (out : PyDict)
    (name : String) (sch : PropSchema) (dv : PyVal)
    (h : validate_parameters input = .ok out) (hmem : (name, sch) ∈ properties)
    (hin : dget input name = Option.none) (hdf : sch.dflt = some dv) :
    dget out name = some dv :=
  checkProps_ok_dget_default properties input (requiredFor input) out
    properties_names_nodup (validate_parameters_ok_elim input out h) name sch dv hmem hin hdf

theorem validate_parameters_error_of_unexpected (input : PyDict) (k : String)
    (hk : k ∈ PyDict.keys input) (hnk : ¬ (propNames.contains k = true)) :
    ∃ e, validate_parameters input = .error e := by
  have hne : unexpectedKeys input ≠ [] := by
    have hmem : k ∈ unexpectedKeys input := by
      unfold unexpectedKeys
      exact List.mem_filter.mpr ⟨hk, by simpa using hnk⟩
    intro hempty
    rw [hempty] at hmem
    simp at hmem
  exact ⟨_, by unfold validate_parameters; rw [if_pos hne]⟩

theorem operation_mem_requiredFor (input : PyDict) : "operation" ∈ requiredFor input := by
  unfold requiredFor
  split <;> simp

theorem validate_parameters_error_of_missing_operation (input : PyDict)
    (hop : dget input "operation" = Option.none) :
    ∃ e, validate_parameters input = .error e := by
  by_cases hu : unexpectedKeys input ≠ []
  · exact ⟨_, by unfold validate_parameters; rw [if_pos hu]⟩
  · have hmiss : missingRequired input ≠ [] := by
      have hmem : "operation" ∈ missingRequired input := by
        unfold missingRequired
        exact List.mem_filter.mpr ⟨operation_mem_requiredFor input, by simp [hop]⟩
      intro hempty
      rw [hempty] at hmem
      simp at hmem
    exact ⟨_, by unfold validate_parameters; rw [if_neg hu, if_pos hmiss]⟩

theorem validate_parameters_error_of_missing_token (input : PyDict)
    (hop : ¬ (dget input "operation" = some (.str "readme")))
    (htk : dget input "tool_unlock_token" = Option.none) :
    ∃ e, validate_parameters input = .error e := by
  by_cases hu : unexpectedKeys input ≠ []
  · exact ⟨_, by unfold validate_parameters; rw [if_pos hu]⟩
  · have hmiss : missingRequired input ≠ [] := by
      have hmem : "tool_unlock_token" ∈ missingRequired input := by
        unfold missingRequired
        refine List.mem_filter.mpr ⟨?_, by simp [htk]⟩
        unfold requiredFor
        rw [if_neg hop]
        simp
      intro hempty
      rw [hempty] at hmem
      simp at hmem
    exact ⟨_, by unfold validate_parameters; rw [if_neg hu, if_pos hmiss]⟩

theorem validate_parameters_error_of_bad_type (input : PyDict)
    (name : String) (sch : PropSchema) (v : PyVal)
    (hmem : (name, sch) ∈ properties) (hin : dget input name = some v)
    (ht : typeOk sch.type v = false) :
    ∃ e, validate_parameters input = .error e := by
  by_cases hu : unexpectedKeys input ≠ []
  · exact ⟨_, by unfold validate_parameters; rw [if_pos hu]⟩
  · by_cases hm : missingRequired input ≠ []
    · exact ⟨_, by unfold validate_parameters; rw [if_neg hu, if_pos hm]⟩
    · obtain ⟨e, he⟩ :=
        checkProps_error_of_bad_type properties input (requiredFor input) name sch v hmem hin ht
      exact ⟨e, by unfold validate_parameters; rw [if_neg hu, if_neg hm]; exact he⟩

theorem validate_parameters_error_of_bad_enum (input : PyDict)
    (name : String) (sch : PropSchema) (v : PyVal) (allowed : List String)
    (hmem : (name, sch) ∈ properties) (hin : dget input name = some v)
    (hen : sch.enumVals = some allowed) (hnm : enumMember v allowed = false) :
    ∃ e, validate_parameters input = .error e := by
  by_cases hu : unexpectedKeys input ≠ []
  · exact ⟨_, by unfold validate_parameters; rw [if_pos hu]⟩
  · by_cases hm : missingRequired input ≠ []
    · exact ⟨_, by unfold validate_parameters; rw [if_neg hu, if_pos hm]⟩
    · obtain ⟨e, he⟩ :=
        checkProps_error_of_bad_enum properties input (requiredFor input) name sch v allowed hmem hin hen hnm
      exact ⟨e, by unfold validate_parameters; rw [if_neg hu, if_neg hm]; exact he⟩

theorem validate_parameters_error_ne (input : PyDict) (e : String)
    (h : validate_parameters input = .error e) : e ≠ "" := by
  unfold validate_parameters at h
  repeat' split at h
  all_goals
    first
    | exact Except.noConfusion h
    | exact checkProps_error_ne properties input (requiredFor input) e h
    | (injection h with h'
       subst h'
       repeat' apply append_left_ne
       decide)

/-! ## Error envelopes are never silent -/

/-- An envelope is good when a flagged error always carries a message. -/
def goodResult (r : ToolResult) : Prop := r.isError = true → r.text ≠ ""

theorem goodResult_ite (c : Prop) [Decidable c] (a b : ToolResult × List UIRequest)
    (ha : goodResult a.1) (hb : goodResult b.1) : goodResult (if c then a else b).1 := by
  by_cases h : c
  · rw [if_pos h]
    exact ha
  · rw [if_neg h]
    exact hb

theorem goodResult_cer_pair (tok msg : String) (w : Bool) (s : List UIRequest) (h : msg ≠ "") :
    goodResult ((create_error_response tok msg w, s) : ToolResult × List UIRequest).1 :=
  fun _ => create_error_response_text_ne tok msg w h

theorem goodResult_false_pair (t : String) (s : List UIRequest) :
    goodResult (((⟨t, false⟩ : ToolResult), s) : ToolResult × List UIRequest).1 :=
  fun hh => Bool.noConfusion hh

theorem show_html_window_core_good (tok : String) (env : Env)
    (html url title width height resizable modal timeout cos aot btf ar wfr : PyVal) :
    goodResult (show_html_window_core tok env html url title width height resizable modal timeout cos aot btf ar wfr).1 := by
  unfold show_html_window_core
  repeat'
    first
    | apply goodResult_ite
    | (apply goodResult_cer_pair
       repeat' apply append_left_ne
       decide)
    | apply goodResult_false_pair

theorem show_html_window_good (tok : String) (env : Env) (params : PyDict) :
    goodResult (show_html_window tok env params).1 := by
  unfold show_html_window
  apply show_html_window_core_good

theorem test_queue_communication_good (tok : String) (env : Env) (params : PyDict) :
    goodResult (test_queue_communication tok env params).1 := by
  intro hh
  exact Bool.noConfusion hh

theorem show_toast_notification_good (tok : String) (env : Env) (params : PyDict) :
    goodResult (show_toast_notification tok env params).1 := by
  simp only [show_toast_notification]
  repeat' split
  all_goals
    first
    | (intro hh; exact Bool.noConfusion hh)
    | (intro _
       apply create_error_response_text_ne
       repeat' apply append_left_ne
       decide)

theorem collect_api_key_from_user_good (tok : String) (env : Env) (params : PyDict) :
    goodResult (collect_api_key_from_user tok env params).1 := by
  unfold collect_api_key_from_user
  apply show_html_window_good

theorem send_message_to_user_good (tok : String) (env : Env) (params : PyDict) :
    goodResult (send_message_to_user tok env params).1 := by
  simp only [send_message_to_user]
  repeat' split
  all_goals
    first
    | (intro hh; exact Bool.noConfusion hh)
    | (intro _
       apply create_error_response_text_ne
       repeat' apply append_left_ne
       decide)

theorem check_user_messages_good (tok : String) (env : Env) (params : PyDict) :
    goodResult (check_user_messages tok env params).1 := by
  simp only [check_user_messages]
  repeat' split
  all_goals
    first
    | (intro hh; exact Bool.noConfusion hh)
    | (intro _
       apply create_error_response_text_ne
       repeat' apply append_left_ne
       decide)

theorem show_message_dashboard_good (tok : String) (env : Env) (params : PyDict) :
    goodResult (show_message_dashboard tok env params).1 := by
  simp only [show_message_dashboard]
  repeat' split
  all_goals
    first
    | (intro hh; exact Bool.noConfusion hh)
    | (intro _
       apply create_error_response_text_ne
       repeat' apply append_left_ne
       decide)

theorem hide_message_dashboard_good (tok : String) (env : Env) (params : PyDict) :
    goodResult (hide_message_dashboard tok env params).1 := by
  simp only [hide_message_dashboard]
  repeat' split
  all_goals
    first
    | (intro hh; exact Bool.noConfusion hh)
    | (intro _
       apply create_error_response_text_ne
       repeat' apply append_left_ne
       decide)

theorem get_message_history_good (tok : String) (env : Env) (params : PyDict) :
    goodResult (get_message_history tok env params).1 := by
  simp only [get_message_history]
  repeat' split
  all_goals
    first
    | (intro hh; exact Bool.noConfusion hh)
    | (intro _
       apply create_error_response_text_ne
       repeat' apply append_left_ne
       decide)

theorem clear_message_queues_good (tok : String) (env : Env) (params : PyDict) :
    goodResult (clear_message_queues tok env params).1 := by
  simp only [clear_message_queues]
  repeat' split
  all_goals
    first
    | (intro hh; exact Bool.noConfusion hh)
    | (intro _
       apply create_error_response_text_ne
       repeat' apply append_left_ne
       decide)

set_option maxHeartbeats 1000000 in
theorem dispatch_good (tok : String) (env : Env) (d : PyDict) :
    goodResult (dispatch tok env d).1 := by
  cases hv : validate_parameters d with
  | error e =>
      simp only [dispatch, hv]
      intro _
      exact create_error_response_text_ne tok e true (validate_parameters_error_ne d e hv)
  | ok validated =>
      simp only [dispatch, hv]
      repeat'
        first
        | apply show_html_window_good
        | apply test_queue_communication_good
        | apply show_toast_notification_good
        | apply collect_api_key_from_user_good
        | apply send_message_to_user_good
        | apply check_user_messages_good
        | apply show_message_dashboard_good
        | apply hide_message_dashboard_good
        | apply get_message_history_good
        | apply clear_message_queues_good
        | apply goodResult_false_pair
        | (apply goodResult_cer_pair
           repeat' apply append_left_ne
           decide)
        | apply goodResult_ite

theorem handle_user_good (tok : String) (env : Env) (input_param : PyDict) :
    goodResult (handle_user tok env input_param).1 := by
  simp only [handle_user]
  repeat' split
  all_goals
    first
    | apply dispatch_good
    | (intro hh; exact Bool.noConfusion hh)
    | (intro _
       apply create_error_response_text_ne
       repeat' apply append_left_ne
       decide)

/-! ## Equational lemmas for the handler pipeline -/

theorem handle_user_readme_eq (tok : String) (env : Env) (input_param : PyDict) (d : PyDict)
    (hc : collapse_input input_param = .dict d)
    (hop : dget d "operation" = some (.str "readme")) :
    handle_user tok env input_param = ((⟨readme tok true, false⟩ : ToolResult), []) := by
  simp [handle_user, hc, hop]

theorem handle_user_auth_fail_eq (tok : String) (env : Env) (input_param : PyDict) (d : PyDict)
    (hc : collapse_input input_param = .dict d)
    (hop : ¬ (dget d "operation" = some (.str "readme")))
    (htok : dget d "tool_unlock_token" = Option.none ∨
      ∃ s, dget d "tool_unlock_token" = some (.str s) ∧ token_authorized s tok = false) :
    handle_user tok env input_param = (create_error_response tok invalid_token_msg true, []) := by
  rcases htok with hnone | ⟨s, hs, hauth⟩
  · simp [handle_user, hc, hop, hnone]
  · simp [handle_user, hc, hop, hs, hauth]

theorem handle_user_dispatch_eq (tok : String) (env : Env) (input_param : PyDict) (d : PyDict) (s : String)
    (hc : collapse_input input_param = .dict d)
    (hop : ¬ (dget d "operation" = some (.str "readme")))
    (hs : dget d "tool_unlock_token" = some (.str s))
    (hauth : token_authorized s tok = true) :
    handle_user tok env input_param = dispatch tok env d := by
  simp [handle_user, hc, hop, hs, hauth]

theorem dispatch_validation_error_eq (tok : String) (env : Env) (d : PyDict) (e : String)
    (hv : validate_parameters d = .error e) :
    dispatch tok env d = (create_error_response tok e true, []) := by
  simp [dispatch, hv]

theorem dispatch_popup_eq (tok : String) (env : Env) (d validated : PyDict)
    (hv : validate_parameters d = .ok validated)
    (hop : dget validated "operation" = some (.str "show_popup")) :
    dispatch tok env d = show_html_window tok env (dset validated "modal" (.bool false)) := by
  simp [dispatch, hv, hop]

theorem dispatch_dialog_eq (tok : String) (env : Env) (d validated : PyDict) (mv : PyVal)
    (hv : validate_parameters d = .ok validated)
    (hop : dget validated "operation" = some (.str "show_dialog"))
    (hmod : dget validated "modal" = some mv) :
    dispatch tok env d = show_html_window tok env validated := by
  simp [dispatch, hv, hop, hmod]

theorem handle_user_sent_elim (tok : String) (env : Env) (input_param : PyDict) (req : UIRequest)
    (hreq : req ∈ (handle_user tok env input_param).2) :
    ∃ d s, collapse_input input_param = .dict d ∧
      ¬ (dget d "operation" = some (.str "readme")) ∧
      dget d "tool_unlock_token" = some (.str s) ∧
      token_authorized s tok = true ∧
      req ∈ (dispatch tok env d).2 := by
  unfold handle_user at hreq
  repeat' split at hreq
  all_goals
    first
    | simp at hreq
    | exact ⟨_, _, by assumption, by assumption, by assumption, by assumption, hreq⟩

theorem mem_snd_ite_elim (c : Prop) [Decidable c] (a b : ToolResult × List UIRequest)
    (req : UIRequest) (h : req ∈ (if c then a else b).2) : req ∈ a.2 ∨ req ∈ b.2 := by
  by_cases hc : c
  · rw [if_pos hc] at h
    exact Or.inl h
  · rw [if_neg hc] at h
    exact Or.inr h

theorem show_webengine_window_sent (env : Env)
    (html title width height modal timeout cos aot btf ar url rz wfr : PyVal) (req : UIRequest)
    (hreq : req ∈ (show_webengine_window env html title width height modal timeout cos aot btf ar url rz wfr).2) :
    req = ⟨"show_popup", show_request_data html url title width height modal timeout cos aot btf ar rz⟩ := by
  unfold show_webengine_window at hreq
  repeat' split at hreq
  all_goals simp_all

theorem show_html_window_core_sent_modal (tok : String) (env : Env)
    (html url title width height resizable modal timeout cos aot btf ar wfr : PyVal) (req : UIRequest)
    (hreq : req ∈ (show_html_window_core tok env html url title width height resizable modal timeout cos aot btf ar wfr).2) :
    dget req.data "modal" = some modal := by
  unfold show_html_window_core at hreq
  repeat' rcases mem_snd_ite_elim _ _ _ _ hreq with hreq | hreq
  all_goals
    first
    | exact (List.not_mem_nil req hreq).elim
    | (have h2 := show_webengine_window_sent _ _ _ _ _ _ _ _ _ _ _ _ _ _ _ hreq
       rw [h2]
       simp [show_request_data, dget])

theorem show_html_window_sent_modal (tok : String) (env : Env) (params : PyDict) (req : UIRequest)
    (hreq : req ∈ (show_html_window tok env params).2) :
    dget req.data "modal" = some (pyGet params "modal" (.bool true)) := by
  unfold show_html_window at hreq
  exact show_html_window_core_sent_modal _ _ _ _ _ _ _ _ _ _ _ _ _ _ _ _ hreq

theorem show_html_window_both_eq (tok : String) (env : Env) (params : PyDict)
    (hh : truthy (pyGetN params "html") = true) (hu : truthy (pyGetN params "url") = true) :
    show_html_window tok env params =
      (create_error_response tok "Cannot specify both \x27html\x27 and \x27url\x27 - choose one" true, []) := by
  unfold show_html_window show_html_window_core
  simp [hh, hu]

theorem show_html_window_neither_eq (tok : String) (env : Env) (params : PyDict)
    (hh : truthy (pyGetN params "html") = false) (hu : truthy (pyGetN params "url") = false) :
    show_html_window tok env params =
      (create_error_response tok "Missing required parameter: must provide either \x27html\x27 or \x27url\x27" true, []) := by
  unfold show_html_window show_html_window_core
  simp [hh, hu]

theorem operation_mem_properties :
    ("operation", (⟨PType.string, some operationEnum, Option.none⟩ : PropSchema)) ∈ properties := by
  decide

theorem modal_mem_properties :
    ("modal", (⟨PType.boolean, Option.none, some (.bool true)⟩ : PropSchema)) ∈ properties := by
  decide

theorem width_mem_properties :
    ("width", (⟨PType.integer, Option.none, some (.int 600)⟩ : PropSchema)) ∈ properties := by
  decide

/-! ## Claim theorems -/

/-- C2: when the presentation-thread consumption endpoint (the registered
request queue) does not exist, every queue-consuming operation returns the
distinct no-consumer / environment error outcome rather than a timeout —
regardless of the timeout parameter and of any reply behaviour, so in
particular a window-display request with a 0 timeout bound; the no-consumer
reply is tagged `status = "error"` and differs from every timeout reply. -/
theorem no_consumer_env_error (tok : String) (env : Env) (h : env.queueExists = false) :
    (∀ html title width height modal timeout cos aot btf ar url rz wfr : PyVal,
       show_webengine_window env html title width height modal timeout cos aot btf ar url rz wfr
         = (no_queue_reply, [])) ∧
    (∀ message : PyVal, test_queue_message_passing env message = (no_queue_reply, [])) ∧
    (∀ params : PyDict, truthy (pyGetN params "content") = true →
       send_message_to_user tok env params =
         (create_error_response tok "No UI request queue available. Ensure friday.py is running." false, [])) ∧
    (∀ params : PyDict, check_user_messages tok env params =
         (create_error_response tok "No UI request queue available. Ensure friday.py is running." false, [])) ∧
    (∀ params : PyDict, show_message_dashboard tok env params =
         (create_error_response tok "No UI request queue available. Ensure friday.py is running." false, [])) ∧
    (∀ params : PyDict, hide_message_dashboard tok env params =
         (create_error_response tok "No UI request queue available." false, [])) ∧
    (∀ params : PyDict, get_message_history tok env params =
         (create_error_response tok "No UI request queue available." false, [])) ∧
    (∀ params : PyDict, clear_message_queues tok env params =
         (create_error_response tok "No UI request queue available." false, [])) ∧
    pyValGet no_queue_reply "status" PyVal.none = PyVal.str "error" ∧
    (∀ b : Int, no_queue_reply ≠ timeout_reply b) := by
  refine ⟨?_, ?_, ?_, ?_, ?_, ?_, ?_, ?_, by decide, ?_⟩
  · intro html title width height modal timeout cos aot btf ar url rz wfr
    simp [show_webengine_window, h]
  · intro message
    simp [test_queue_message_passing, h]
  · intro params hc
    simp [send_message_to_user, hc, h]
  · intro params
    simp [check_user_messages, h]
  · intro params
    simp [show_message_dashboard, h]
  · intro params
    simp [hide_message_dashboard, h]
  · intro params
    simp [get_message_history, h]
  · intro params
    simp [clear_message_queues, h]
  · intro b heq
    simp [no_queue_reply, timeout_reply] at heq

/-- Concrete instance of the no-consumer theorem: a window request with a 0
timeout bound and a message check, both against an absent consumer. -/
theorem no_consumer_env_error_witness :
    show_webengine_window (Env.mk false Option.none PyVal.none 0 "u" EngineState.ok)
        (.str "<p>") (.str "T") (.int 600) (.int 400) (.bool true) (.int 0)
        (.bool true) (.bool true) (.bool true) (.bool false) PyVal.none (.bool false) (.bool true)
      = (no_queue_reply, []) ∧
    check_user_messages "tok" (Env.mk false Option.none PyVal.none 0 "u" EngineState.ok) PyDict.nil
      = (create_error_response "tok" "No UI request queue available. Ensure friday.py is running." false, []) := by
  constructor
  · exact (no_consumer_env_error "tok" _ rfl).1 (.str "<p>") (.str "T") (.int 600) (.int 400)
      (.bool true) (.int 0) (.bool true) (.bool true) (.bool true) (.bool false) PyVal.none
      (.bool false) (.bool true)
  · exact (no_consumer_env_error "tok" _ rfl).2.2.2.1 PyDict.nil

/-- C3: a window-display call with `wait_for_response = false` still enqueues
the request to the consumer queue and returns the immediate async success
envelope without reading the reply channel — the result is the same for
every reply behaviour of the environment. -/
theorem fire_and_forget_enqueues (tok : String) (env : Env) (h : env.queueExists = true) :
    (∀ html title width height modal timeout cos aot btf ar url rz : PyVal,
       show_webengine_window env html title width height modal timeout cos aot btf ar url rz (.bool false)
         = (async_success_reply,
            [⟨"show_popup", show_request_data html url title width height modal timeout cos aot btf ar rz⟩])) ∧
    (∀ hs : String, hs ≠ "" →
       show_html_window tok env (PyDict.ofList [("html", .str hs), ("wait_for_response", .bool false)])
         = ((⟨dumps async_success_reply, false⟩ : ToolResult),
            [⟨"show_popup",
              show_request_data (.str hs) PyVal.none (.str "User Interface") (.int 600) (.int 400)
                (.bool true) (.int 0) (.bool true) (.bool true) (.bool true) (.bool false) (.bool false)⟩])) := by
  constructor
  · intro html title width height modal timeout cos aot btf ar url rz
    simp [show_webengine_window, h, truthy]
  · intro hs hne
    simp [show_html_window, show_html_window_core, PyDict.ofList, pyGetN, pyGet, dget,
      truthy, hne, isStr, isBool, isIntLike, pyInt, show_webengine_window, h]

/-- Concrete instance of fire-and-forget: the consumer never replies
(`replyAt = none`), yet the call returns the immediate success envelope with
the request enqueued. -/
theorem fire_and_forget_enqueues_witness :
    show_html_window "tok" (Env.mk true Option.none PyVal.none 0 "u" EngineState.ok)
        (PyDict.ofList [("html", .str "<p>hi</p>"), ("wait_for_response", .bool false)])
      = ((⟨dumps async_success_reply, false⟩ : ToolResult),
         [⟨"show_popup",
           show_request_data (.str "<p>hi</p>") PyVal.none (.str "User Interface") (.int 600) (.int 400)
             (.bool true) (.int 0) (.bool true) (.bool true) (.bool true) (.bool false) (.bool false)⟩]) :=
  (fire_and_forget_enqueues "tok" _ rfl).2 "<p>hi</p>" (by decide)

/-- C4 counterexample: the claim says the producer-side wait bound of a
waiting window-display call always equals the interaction timeout plus 5;
with a caller timeout of 0 the bound is 65, and a reply arriving at time 10
(after the claimed bound 0 + 5 would have elapsed) is still received. -/
theorem wait_bound_plus5_counterexample :
    showMaxWait 0 = 65 ∧
    ¬ showMaxWait 0 = 0 + 5 ∧
    (show_webengine_window
        (Env.mk true (some 10) (.dict (.cons "status" (.str "success") PyDict.nil)) 0 "u" EngineState.ok)
        (.str "<p>") (.str "T") (.int 600) (.int 400) (.bool true) (.int 0)
        (.bool true) (.bool true) (.bool true) (.bool false) PyVal.none (.bool false) (.bool true)).1
      = .dict (.cons "status" (.str "success") PyDict.nil) ∧
    reply_get (Env.mk true (some 10) (.dict (.cons "status" (.str "success") PyDict.nil)) 0 "u" EngineState.ok)
        (0 + 5)
      = Option.none := by
  decide

/-- C4 amended: a waiting window-display call waits `timeout + 5` when the
caller-specified timeout is positive and a fixed 65 units when it is 0; each
administrative message-store operation waits a fixed bound between 5 and 10
units; and an elapsed bound always produces the distinct timeout outcome,
never silent failure. -/
theorem wait_bounds_amended :
    (∀ t : Int, 0 < t → showMaxWait t = t + 5) ∧
    showMaxWait 0 = 65 ∧
    ((5 ≤ SEND_MESSAGE_MAX_WAIT ∧ SEND_MESSAGE_MAX_WAIT ≤ 10) ∧
     (5 ≤ CHECK_MESSAGES_MAX_WAIT ∧ CHECK_MESSAGES_MAX_WAIT ≤ 10) ∧
     (5 ≤ SHOW_DASHBOARD_MAX_WAIT ∧ SHOW_DASHBOARD_MAX_WAIT ≤ 10) ∧
     (5 ≤ HIDE_DASHBOARD_MAX_WAIT ∧ HIDE_DASHBOARD_MAX_WAIT ≤ 10) ∧
     (5 ≤ GET_HISTORY_MAX_WAIT ∧ GET_HISTORY_MAX_WAIT ≤ 10) ∧
     (5 ≤ CLEAR_MESSAGES_MAX_WAIT ∧ CLEAR_MESSAGES_MAX_WAIT ≤ 10)) ∧
    (∀ (env : Env) (html title width height modal timeout cos aot btf ar url rz wfr : PyVal),
       env.queueExists = true → truthy wfr = true →
       reply_get env (showMaxWait (pyInt timeout)) = Option.none →
       show_webengine_window env html title width height modal timeout cos aot btf ar url rz wfr
         = (timeout_reply (showMaxWait (pyInt timeout)),
            [⟨"show_popup", show_request_data html url title width height modal timeout cos aot btf ar rz⟩])) ∧
    (∀ (tok : String) (env : Env) (params : PyDict), env.queueExists = true →
       truthy (pyGetN params "content") = true →
       reply_get env SEND_MESSAGE_MAX_WAIT = Option.none →
       (send_message_to_user tok env params).1
         = create_error_response tok "Timeout waiting for message queue confirmation" false) ∧
    (∀ (tok : String) (env : Env) (params : PyDict), env.queueExists = true →
       reply_get env CHECK_MESSAGES_MAX_WAIT = Option.none →
       (check_user_messages tok env params).1
         = create_error_response tok "Timeout waiting for message check response" false) ∧
    (∀ (tok : String) (env : Env) (params : PyDict), env.queueExists = true →
       reply_get env SHOW_DASHBOARD_MAX_WAIT = Option.none →
       (show_message_dashboard tok env params).1
         = create_error_response tok "Timeout waiting for dashboard to show" false) ∧
    (∀ (tok : String) (env : Env) (params : PyDict), env.queueExists = true →
       reply_get env HIDE_DASHBOARD_MAX_WAIT = Option.none →
       (hide_message_dashboard tok env params).1
         = create_error_response tok "Timeout waiting for dashboard to hide" false) ∧
    (∀ (tok : String) (env : Env) (params : PyDict), env.queueExists = true →
       reply_get env GET_HISTORY_MAX_WAIT = Option.none →
       (get_message_history tok env params).1
         = create_error_response tok "Timeout waiting for message history" false) ∧
    (∀ (tok : String) (env : Env) (params : PyDict), env.queueExists = true →
       reply_get env CLEAR_MESSAGES_MAX_WAIT = Option.none →
       (clear_message_queues tok env params).1
         = create_error_response tok "Timeout waiting for clear confirmation" false) := by
  refine ⟨?_, by decide, by decide, ?_, ?_, ?_, ?_, ?_, ?_, ?_⟩
  · intro t ht
    simp [showMaxWait, ht]
  · intro env html title width height modal timeout cos aot btf ar url rz wfr hq hw hr
    simp [show_webengine_window, hq, hw, hr]
  · intro tok env params hq hc hr
    simp [send_message_to_user, hq, hc, hr]
  · intro tok env params hq hr
    simp [check_user_messages, hq, hr]
  · intro tok env params hq hr
    simp [show_message_dashboard, hq, hr]
  · intro tok env params hq hr
    simp [hide_message_dashboard, hq, hr]
  · intro tok env params hq hr
    simp [get_message_history, hq, hr]
  · intro tok env params hq hr
    simp [clear_message_queues, hq, hr]

/-- Concrete instance of the amended timeout policy: bound for a 7-unit
interaction timeout, and a message check that times out when the consumer
replies only at time 100. -/
theorem wait_bounds_amended_witness :
    showMaxWait 7 = 7 + 5 ∧
    (check_user_messages "tok" (Env.mk true (some 100) PyVal.none 0 "u" EngineState.ok) PyDict.nil).1
      = create_error_response "tok" "Timeout waiting for message check response" false := by
  constructor
  · exact wait_bounds_amended.1 7 (by decide)
  · exact wait_bounds_amended.2.2.2.2.2.1 "tok" _ PyDict.nil rfl (by decide)

/-- C5 counterexample: supplying the boolean `True` for the integer-typed
`width` parameter is a wrong primitive type, yet the call passes validation
(`isinstance(True, int)` holds in Python) and the operation is dispatched: a
request is enqueued and the envelope is not an error. -/
theorem validation_bool_for_int_counterexample :
    (handle_user "tok"
        (Env.mk true (some 0) (.dict (.cons "status" (.str "success") PyDict.nil)) 0 "u" EngineState.ok)
        (PyDict.ofList [("operation", .str "show_popup"), ("tool_unlock_token", .str "tok"),
          ("html", .str "<p>hi</p>"), ("width", .bool true)])).2 ≠ [] ∧
    (handle_user "tok"
        (Env.mk true (some 0) (.dict (.cons "status" (.str "success") PyDict.nil)) 0 "u" EngineState.ok)
        (PyDict.ofList [("operation", .str "show_popup"), ("tool_unlock_token", .str "tok"),
          ("html", .str "<p>hi</p>"), ("width", .bool true)])).1.isError = false := by
  decide

/-- C5 amended: unexpected parameters, missing required parameters, wrong
primitive types and enum violations each make `validate_parameters` fail,
and a validation failure makes the call return the error with the
documentation attached and dispatch nothing — with the one exception forced
by Python `bool` being a subtype of `int`: a boolean value satisfies the
`integer` type check. -/
theorem validation_errors_amended :
    (∀ (input : PyDict) (k : String), k ∈ PyDict.keys input → ¬ (propNames.contains k = true) →
       ∃ e, validate_parameters input = .error e) ∧
    (∀ input : PyDict, dget input "operation" = Option.none →
       ∃ e, validate_parameters input = .error e) ∧
    (∀ input : PyDict, ¬ (dget input "operation" = some (.str "readme")) →
       dget input "tool_unlock_token" = Option.none →
       ∃ e, validate_parameters input = .error e) ∧
    (∀ (input : PyDict) (name : String) (sch : PropSchema) (v : PyVal),
       (name, sch) ∈ properties → dget input name = some v → typeOk sch.type v = false →
       ∃ e, validate_parameters input = .error e) ∧
    (∀ (input : PyDict) (name : String) (sch : PropSchema) (v : PyVal) (allowed : List String),
       (name, sch) ∈ properties → dget input name = some v → sch.enumVals = some allowed →
       enumMember v allowed = false →
       ∃ e, validate_parameters input = .error e) ∧
    (∀ b : Bool, typeOk PType.integer (.bool b) = true) ∧
    (∀ (tok : String) (env : Env) (input_param d : PyDict) (s : String) (e : String),
       collapse_input input_param = .dict d →
       ¬ (dget d "operation" = some (.str "readme")) →
       dget d "tool_unlock_token" = some (.str s) →
       token_authorized s tok = true →
       validate_parameters d = .error e →
       handle_user tok env input_param = (create_error_response tok e true, [])) := by
  refine ⟨validate_parameters_error_of_unexpected, validate_parameters_error_of_missing_operation,
    validate_parameters_error_of_missing_token, validate_parameters_error_of_bad_type,
    validate_parameters_error_of_bad_enum, by decide, ?_⟩
  intro tok env input_param d s e hc hop hs hauth hv
  rw [handle_user_dispatch_eq tok env input_param d s hc hop hs hauth,
    dispatch_validation_error_eq tok env d e hv]

/-- Concrete instances of the amended validation rules: an unexpected key,
a wrongly-typed `title`, and an `operation` outside the enum each fail
validation. -/
theorem validation_errors_amended_witness :
    (∃ e, validate_parameters (PyDict.ofList [("bogus_key", .str "x")]) = .error e) ∧
    (∃ e, validate_parameters (PyDict.ofList [("operation", .str "show_popup"),
      ("tool_unlock_token", .str "t"), ("title", .int 3)]) = .error e) ∧
    (∃ e, validate_parameters (PyDict.ofList [("operation", .str "fly_to_moon"),
      ("tool_unlock_token", .str "t")]) = .error e) := by
  refine ⟨?_, ?_, ?_⟩
  · exact validation_errors_amended.1 _ "bogus_key" (by decide) (by decide)
  · exact validation_errors_amended.2.2.2.1 _ "title"
      ⟨PType.string, Option.none, some (.str "User Interface")⟩ (.int 3)
      (by decide) (by decide) (by decide)
  · exact validation_errors_amended.2.2.2.2.1 _ "operation"
      ⟨PType.string, some operationEnum, Option.none⟩ (.str "fly_to_moon") operationEnum
      (by decide) (by decide) (by decide) (by decide)

/-- C6: the readme operation is exempt from token gating — any call whose
collapsed input carries `operation = "readme"` returns the full
documentation in a non-error envelope without any token check and without
enqueuing anything, and the documentation embeds the installation token. -/
theorem readme_exempt_from_gating (tok : String) (env : Env) (input_param d : PyDict)
    (hc : collapse_input input_param = .dict d)
    (hop : dget d "operation" = some (.str "readme")) :
    handle_user tok env input_param = ((⟨readme tok true, false⟩ : ToolResult), []) ∧
    ∃ pre post : String, readme tok true = pre ++ tok ++ post := by
  refine ⟨handle_user_readme_eq tok env input_param d hc hop,
    "\n\n" ++ docPart1, docPart2 ++ tok ++ docPart3, ?_⟩
  simp [readme, String.append_assoc]

/-- Concrete instance of the readme exemption: no token field at all. -/
theorem readme_exempt_from_gating_witness :
    handle_user "tok123" (Env.mk false Option.none PyVal.none 0 "u" EngineState.ok)
        (PyDict.ofList [("operation", .str "readme")])
      = ((⟨readme "tok123" true, false⟩ : ToolResult), []) ∧
    ∃ pre post : String, readme "tok123" true = pre ++ "tok123" ++ post :=
  readme_exempt_from_gating "tok123" _ _ (PyDict.ofList [("operation", .str "readme")]) rfl rfl

/-- C7: a non-readme call whose token is missing, or is a string that is
neither the installation token nor a valid delegation token, returns the
authorization error envelope with the full documentation attached and
dispatches nothing. -/
theorem auth_failure_docs_attached (tok : String) (env : Env) (input_param d : PyDict)
    (hc : collapse_input input_param = .dict d)
    (hop : ¬ (dget d "operation" = some (.str "readme")))
    (htok : dget d "tool_unlock_token" = Option.none ∨
      ∃ s, dget d "tool_unlock_token" = some (.str s) ∧ token_authorized s tok = false) :
    handle_user tok env input_param = (create_error_response tok invalid_token_msg true, []) ∧
    (create_error_response tok invalid_token_msg true).text = invalid_token_msg ++ readme tok true ∧
    (create_error_response tok invalid_token_msg true).isError = true :=
  ⟨handle_user_auth_fail_eq tok env input_param d hc hop htok, rfl, rfl⟩

/-- Concrete instance of the authorization-failure path: a wrong token. -/
theorem auth_failure_docs_attached_witness :
    handle_user "tok" (Env.mk true (some 0) PyVal.none 0 "u" EngineState.ok)
        (PyDict.ofList [("operation", .str "show_popup"), ("tool_unlock_token", .str "bad"),
          ("html", .str "<p>")])
      = (create_error_response "tok" invalid_token_msg true, []) ∧
    (create_error_response "tok" invalid_token_msg true).text
      = invalid_token_msg ++ readme "tok" true ∧
    (create_error_response "tok" invalid_token_msg true).isError = true :=
  auth_failure_docs_attached "tok" _ _
    (PyDict.ofList [("operation", .str "show_popup"), ("tool_unlock_token", .str "bad"),
      ("html", .str "<p>")])
    rfl (by decide) (Or.inr ⟨"bad", rfl, by decide⟩)

/-- C8 counterexample: a show_popup call providing BOTH `html` (as the empty
string) and `url` is not rejected — presence is judged by Python truthiness,
so the call dispatches and enqueues a request instead of returning a
validation error. -/
theorem html_url_both_counterexample :
    (handle_user "tok"
        (Env.mk true (some 0) (.dict (.cons "status" (.str "success") PyDict.nil)) 0 "u" EngineState.ok)
        (PyDict.ofList [("operation", .str "show_popup"), ("tool_unlock_token", .str "tok"),
          ("html", .str ""), ("url", .str "http://x")])).2 ≠ [] ∧
    (handle_user "tok"
        (Env.mk true (some 0) (.dict (.cons "status" (.str "success") PyDict.nil)) 0 "u" EngineState.ok)
        (PyDict.ofList [("operation", .str "show_popup"), ("tool_unlock_token", .str "tok"),
          ("html", .str ""), ("url", .str "http://x")])).1.isError = false := by
  decide

/-- C8 amended: the two content parameters are mutually exclusive and one is
required, with presence judged by Python truthiness (an empty string counts
as absent): providing both truthy, or neither truthy, returns a validation
error and enqueues nothing. -/
theorem html_url_exclusive_amended (tok : String) (env : Env) (params : PyDict) :
    (truthy (pyGetN params "html") = true → truthy (pyGetN params "url") = true →
       show_html_window tok env params =
         (create_error_response tok "Cannot specify both \x27html\x27 and \x27url\x27 - choose one" true, [])) ∧
    (truthy (pyGetN params "html") = false → truthy (pyGetN params "url") = false →
       show_html_window tok env params =
         (create_error_response tok "Missing required parameter: must provide either \x27html\x27 or \x27url\x27" true, [])) :=
  ⟨fun hh hu => show_html_window_both_eq tok env params hh hu,
   fun hh hu => show_html_window_neither_eq tok env params hh hu⟩

/-- Concrete instances of the amended exclusivity rule. -/
theorem html_url_exclusive_amended_witness :
    show_html_window "tok" (Env.mk true (some 0) PyVal.none 0 "u" EngineState.ok)
        (PyDict.ofList [("html", .str "<p>"), ("url", .str "http://x")])
      = (create_error_response "tok" "Cannot specify both \x27html\x27 and \x27url\x27 - choose one" true, []) ∧
    show_html_window "tok" (Env.mk true (some 0) PyVal.none 0 "u" EngineState.ok) PyDict.nil
      = (create_error_response "tok" "Missing required parameter: must provide either \x27html\x27 or \x27url\x27" true, []) :=
  ⟨(html_url_exclusive_amended "tok" _ _).1 (by decide) (by decide),
   (html_url_exclusive_amended "tok" _ _).2 (by decide) (by decide)⟩

/-- C9: the top-level handler always returns a well-formed MCP result
envelope — a dict with a single text content item and an `isError` flag —
and a flagged error always carries a non-empty message; the handler is a
total function of its inputs (every internal failure path of the source is
translated to an envelope, never a propagated exception), and it touches no
state beyond its own reply channel and the request payloads it returns. -/
theorem handler_total_envelope (tok : String) (env : Env) (input_param : PyDict) :
    ∃ (t : String) (e : Bool),
      mcp_envelope (handle_user tok env input_param).1 =
        .dict (.cons "content"
                 (.list (.cons (.dict (.cons "type" (.str "text")
                                        (.cons "text" (.str t) PyDict.nil))) PyList.nil))
                 (.cons "isError" (.bool e) PyDict.nil)) ∧
      (e = true → t ≠ "") :=
  ⟨(handle_user tok env input_param).1.text, (handle_user tok env input_param).1.isError,
    rfl, handle_user_good tok env input_param⟩

/-- C10: a `show_popup` call always sends `modal = false` in the request
payload, even when the caller explicitly supplied `modal = true`; a
`show_dialog` call with `modal` omitted sends `modal = true`. -/
theorem popup_dialog_modal_forcing :
    (∀ (tok : String) (env : Env) (input_param d : PyDict) (req : UIRequest),
       collapse_input input_param = .dict d →
       dget d "operation" = some (.str "show_popup") →
       req ∈ (handle_user tok env input_param).2 →
       dget req.data "modal" = some (.bool false)) ∧
    (∀ (tok : String) (env : Env) (input_param d : PyDict) (req : UIRequest),
       collapse_input input_param = .dict d →
       dget d "operation" = some (.str "show_dialog") →
       dget d "modal" = Option.none →
       req ∈ (handle_user tok env input_param).2 →
       dget req.data "modal" = some (.bool true)) := by
  constructor
  · intro tok env input_param d req hc hop hreq
    obtain ⟨d2, s, hc2, hop2, hs, hauth, hdreq⟩ := handle_user_sent_elim tok env input_param req hreq
    rw [hc] at hc2
    injection hc2 with hdd
    subst hdd
    cases hv : validate_parameters d with
    | error e =>
        rw [dispatch_validation_error_eq tok env d e hv] at hdreq
        exact absurd hdreq (List.not_mem_nil req)
    | ok validated =>
        have hopv : dget validated "operation" = some (.str "show_popup") :=
          validate_parameters_ok_dget_provided d validated "operation" _ _ hv
            operation_mem_properties hop
        rw [dispatch_popup_eq tok env d validated hv hopv] at hdreq
        have hm := show_html_window_sent_modal tok env _ req hdreq
        rw [hm]
        simp [pyGet, dget_dset_self]
  · intro tok env input_param d req hc hop hmod hreq
    obtain ⟨d2, s, hc2, hop2, hs, hauth, hdreq⟩ := handle_user_sent_elim tok env input_param req hreq
    rw [hc] at hc2
    injection hc2 with hdd
    subst hdd
    cases hv : validate_parameters d with
    | error e =>
        rw [dispatch_validation_error_eq tok env d e hv] at hdreq
        exact absurd hdreq (List.not_mem_nil req)
    | ok validated =>
        have hopv : dget validated "operation" = some (.str "show_dialog") :=
          validate_parameters_ok_dget_provided d validated "operation" _ _ hv
            operation_mem_properties hop
        have hmodv : dget validated "modal" = some (.bool true) :=
          validate_parameters_ok_dget_default d validated "modal" _ (.bool true) hv
            modal_mem_properties hmod rfl
        rw [dispatch_dialog_eq tok env d validated (.bool true) hv hopv hmodv] at hdreq
        have hm := show_html_window_sent_modal tok env validated req hdreq
        rw [hm]
        simp [pyGet, hmodv]

/-- Concrete instances of the modal forcing: a popup call with an explicit
`modal = true` still sends `modal = false`, and a dialog call without
`modal` sends `modal = true`. -/
theorem popup_dialog_modal_forcing_witness :
    dget (((handle_user "tok"
        (Env.mk true (some 0) (.dict (.cons "status" (.str "success") PyDict.nil)) 0 "u" EngineState.ok)
        (PyDict.ofList [("operation", .str "show_popup"), ("tool_unlock_token", .str "tok"),
          ("html", .str "<p>"), ("modal", .bool true)])).2.headD ⟨"", PyDict.nil⟩).data) "modal"
      = some (.bool false) ∧
    dget (((handle_user "tok"
        (Env.mk true (some 0) (.dict (.cons "status" (.str "success") PyDict.nil)) 0 "u" EngineState.ok)
        (PyDict.ofList [("operation", .str "show_dialog"), ("tool_unlock_token", .str "tok"),
          ("html", .str "<p>")])).2.headD ⟨"", PyDict.nil⟩).data) "modal"
      = some (.bool true) :=
  ⟨popup_dialog_modal_forcing.1 "tok"
      (Env.mk true (some 0) (.dict (.cons "status" (.str "success") PyDict.nil)) 0 "u" EngineState.ok)
      (PyDict.ofList [("operation", .str "show_popup"), ("tool_unlock_token", .str "tok"),
        ("html", .str "<p>"), ("modal", .bool true)])
      (PyDict.ofList [("operation", .str "show_popup"), ("tool_unlock_token", .str "tok"),
        ("html", .str "<p>"), ("modal", .bool true)]) _ rfl (by decide) (by decide),
   popup_dialog_modal_forcing.2 "tok"
      (Env.mk true (some 0) (.dict (.cons "status" (.str "success") PyDict.nil)) 0 "u" EngineState.ok)
      (PyDict.ofList [("operation", .str "show_dialog"), ("tool_unlock_token", .str "tok"),
        ("html", .str "<p>")])
      (PyDict.ofList [("operation", .str "show_dialog"), ("tool_unlock_token", .str "tok"),
        ("html", .str "<p>")]) _ rfl (by decide) (by decide) (by decide)⟩
